import Mathlib

/-!
Verification of the hello-app web service (`src/main.py`) against its
specification.

The application source is seven lines of Python on the FastAPI framework:

  from fastapi import FastAPI
  app = FastAPI()
  @app.get("/")
  async def root():
      return {"message": "Hello CI/CD World!"}

The handler `root` and the route registration `app = FastAPI(); @app.get("/")`
are embedded directly from the source.  The HTTP server itself (routing,
serialization, default 404/405 responses) is framework code that is not part
of this repository, so it is modelled from the specification's §4.1 wording.
-/

/-- HTTP methods, as routed by the server (the method set of the framework's
per-method registration helpers). -/
inductive Method where
  | GET
  | HEAD
  | POST
  | PUT
  | DELETE
  | PATCH
  | OPTIONS
  | TRACE
deriving DecidableEq

/-- An incoming HTTP request: method, path, headers and body.  The handler in
`src/main.py` takes no parameters, so it can depend on none of these. -/
structure Request where
  method : Method
  path : String
  headers : List (String × String)
  body : String
deriving DecidableEq

/-- JSON values, as far as the application produces them: the handler returns
a Python dict of string keys to string values, i.e. a JSON object. -/
inductive Json where
  | str : String → Json
  | obj : List (String × Json) → Json

/-- `root` from `src/main.py` lines 5-7: the handler registered for GET `/`.
Its Python body is the single statement
`return {"message": "Hello CI/CD World!"}`; it takes no parameters, so the
request is ignored. -/
def root (_req : Request) : Json :=
  Json.obj [("message", Json.str "Hello CI/CD World!")]

/-- A FastAPI application instance: its state, as far as this program uses
it, is the route table — a list of (method, path) pairs each mapped to a
handler (spec glossary: "Route: a (method, path) pair mapped to a handler"). -/
structure FastAPIApp where
  routes : List (Method × String × (Request → Json))

/-- Modelled from the spec: the framework's `app.get(path)` decorator is
FastAPI library code, not under `src/`.  Per the spec's glossary a route is
one (method, path) pair mapped to a handler, so `get` appends the single
pair (GET, path) bound to the decorated handler.  (This matches FastAPI's
`APIRoute`, whose `get` helper registers the method set containing GET
only — it does not additionally map HEAD.) -/
def FastAPIApp.get (a : FastAPIApp) (path : String) (handler : Request → Json) : FastAPIApp :=
  ⟨a.routes ++ [(Method.GET, path, handler)]⟩

/-- `app` from `src/main.py` line 3, with the route registered by the
decorator on line 5: `app = FastAPI()` starts with an empty route table and
`@app.get("/")` registers `root` for GET `/`. -/
def app : FastAPIApp :=
  (FastAPIApp.mk []).get "/" root

mutual

/-- Modelled from the spec: JSON serialization of the handler's return value
is framework code, not under `src/`.  §4.1 requires the server to "serialize
its return value to the HTTP response body"; the byte layout follows the
spec's contract literal `\x7b"message": "Hello CI/CD World!"\x7d` — quoted
keys, a colon and a space between key and value, comma-space between
members.  The spec's only payload contains no characters needing escapes,
so strings are emitted verbatim. -/
def serializeJson : Json → String
  | Json.str s => "\"" ++ s ++ "\""
  | Json.obj fs => "\x7b" ++ serializeFields fs ++ "\x7d"

/-- Modelled from the spec: the members of a JSON object, comma-separated,
each rendered as a quoted key, a colon and a space, then the value. -/
def serializeFields : List (String × Json) → String
  | [] => ""
  | [(k, v)] => "\"" ++ k ++ "\": " ++ serializeJson v
  | (k, v) :: rest => "\"" ++ k ++ "\": " ++ serializeJson v ++ ", " ++ serializeFields rest

end

/-- An HTTP response: status code, `Content-Type` header value, and body. -/
structure Response where
  status : Nat
  contentType : String
  body : String
deriving DecidableEq

/-- Modelled from the spec: the HTTP server's dispatch is framework code, not
under `src/`.  §4.1: "route by (method, path), invoke the matching handler,
serialize its return value to the HTTP response body with a
`application/json` content type"; the contract fixes status 200 for a
matched route, and for "any other path or method" the framework's default
404/405 behavior: not-found when no route has the requested path,
method-not-allowed when a route has the path but not the method. -/
def FastAPIApp.handle (a : FastAPIApp) (req : Request) : Response :=
  match a.routes.find? (fun r => r.1 == req.method && r.2.1 == req.path) with
  | some r => ⟨200, "application/json", serializeJson (r.2.2 req)⟩
  | none =>
    if a.routes.any (fun r => r.2.1 == req.path) then
      ⟨405, "text/plain; charset=utf-8", "Method Not Allowed"⟩
    else
      ⟨404, "text/plain; charset=utf-8", "Not Found"⟩

/-- Modelled from the spec: one iteration of the server's request loop,
threading the application state through the handling of one request.  The
spec's §4.2/§3 say the handler has no side effects and no persisted state;
in the embedding the only application state is the route table, which
request handling reads but never writes. -/
def FastAPIApp.step (a : FastAPIApp) (req : Request) : FastAPIApp × Response :=
  (a, a.handle req)

/-- The response of this application (`app` from `src/main.py`) to a
request. -/
def handleRequest (req : Request) : Response :=
  app.handle req

/-- The call semantics of the Python handler made explicit: a Python function
call either returns a value or raises an exception (`Except.error`).  The
body of `root` (`src/main.py` line 7) is a single `return` of a dict
literal, which raises nothing, so the call returns `Except.ok` of the
payload. -/
def rootCall (req : Request) : Except String Json :=
  Except.ok (root req)

/-- The handler's result does not depend on the request: `root` takes no
parameters in the source, so any two calls yield the same value. -/
theorem root_const (req₁ req₂ : Request) : root req₁ = root req₂ := rfl

/-- Dispatch inspects only the method and the path of the request: two
requests agreeing on both receive the same response (the only registered
handler, `root`, ignores the rest of the request). -/
theorem handle_only_method_path (m : Method) (p : String)
    (h₁ : List (String × String)) (b₁ : String)
    (h₂ : List (String × String)) (b₂ : String) :
    handleRequest ⟨m, p, h₁, b₁⟩ = handleRequest ⟨m, p, h₂, b₂⟩ := by
  cases hb : (Method.GET == m && "/" == p) <;>
    simp [handleRequest, app, FastAPIApp.handle, FastAPIApp.get, List.find?, hb, root]

/-- `List.find?` on a one-element list. -/
theorem find?_singleton {α : Type} (f : α → Bool) (a : α) :
    List.find? f [a] = if f a = true then some a else none := by
  cases h : f a <;> simp [List.find?, h]

/-- Claim C1: for every GET request to path `/`, the response has status
exactly 200 and its body is exactly the bytes
`\x7b"message": "Hello CI/CD World!"\x7d`, key order as shown. -/
theorem c1_get_root_status_and_body (req : Request)
    (hm : req.method = Method.GET) (hp : req.path = "/") :
    (handleRequest req).status = 200 ∧
    (handleRequest req).body = "\x7b\"message\": \"Hello CI/CD World!\"\x7d" := by
  obtain ⟨m, p, hs, b⟩ := req
  cases hm
  cases hp
  exact ⟨rfl, rfl⟩

/-- Witness for C1 at the concrete request GET `/`. -/
theorem c1_witness :
    (handleRequest ⟨Method.GET, "/", [], ""⟩).status = 200 ∧
    (handleRequest ⟨Method.GET, "/", [], ""⟩).body =
      "\x7b\"message\": \"Hello CI/CD World!\"\x7d" :=
  c1_get_root_status_and_body ⟨Method.GET, "/", [], ""⟩ rfl rfl

/-- Claim C2: on every invocation the handler returns a mapping whose key
list is exactly `["message"]` (no other keys), with `"message"` bound to the
fixed string "Hello CI/CD World!". -/
theorem c2_payload_single_key (req : Request) :
    ∃ fs, root req = Json.obj fs ∧
      fs.map Prod.fst = ["message"] ∧
      fs.lookup "message" = some (Json.str "Hello CI/CD World!") :=
  ⟨[("message", Json.str "Hello CI/CD World!")], rfl, rfl, rfl⟩

/-- Claim C3: the handler is deterministic and insensitive to its input —
any two requests agreeing on method and path (any headers, any body) get
identical responses, the handler's value never varies at all, and handling
N copies of one request yields N identical responses. -/
theorem c3_deterministic (req₁ req₂ : Request) (n : ℕ)
    (hm : req₁.method = req₂.method) (hp : req₁.path = req₂.path) :
    root req₁ = root req₂ ∧
    handleRequest req₁ = handleRequest req₂ ∧
    (List.replicate n req₁).map handleRequest
      = List.replicate n (handleRequest req₁) := by
  refine ⟨rfl, ?_, ?_⟩
  · obtain ⟨m₁, p₁, h₁, b₁⟩ := req₁
    obtain ⟨m₂, p₂, h₂, b₂⟩ := req₂
    cases hm
    cases hp
    exact handle_only_method_path m₁ p₁ h₁ b₁ h₂ b₂
  · simp [List.map_replicate]

/-- Witness for C3: two GET `/` requests with different headers and bodies,
repeated three times. -/
theorem c3_witness :
    root ⟨Method.GET, "/", [("x", "y")], "abc"⟩ = root ⟨Method.GET, "/", [], ""⟩ ∧
    handleRequest ⟨Method.GET, "/", [("x", "y")], "abc"⟩
      = handleRequest ⟨Method.GET, "/", [], ""⟩ ∧
    (List.replicate 3 (⟨Method.GET, "/", [("x", "y")], "abc"⟩ : Request)).map handleRequest
      = List.replicate 3 (handleRequest ⟨Method.GET, "/", [("x", "y")], "abc"⟩) :=
  c3_deterministic ⟨Method.GET, "/", [("x", "y")], "abc"⟩ ⟨Method.GET, "/", [], ""⟩ 3 rfl rfl

/-- Claim C4: the response to GET `/` carries `Content-Type:
application/json` and its body is the serialization of the handler's return
value. -/
theorem c4_content_type_json (req : Request)
    (hm : req.method = Method.GET) (hp : req.path = "/") :
    (handleRequest req).contentType = "application/json" ∧
    (handleRequest req).body = serializeJson (root req) := by
  obtain ⟨m, p, hs, b⟩ := req
  cases hm
  cases hp
  exact ⟨rfl, rfl⟩

/-- Witness for C4 at the concrete request GET `/`. -/
theorem c4_witness :
    (handleRequest ⟨Method.GET, "/", [], ""⟩).contentType = "application/json" ∧
    (handleRequest ⟨Method.GET, "/", [], ""⟩).body
      = serializeJson (root ⟨Method.GET, "/", [], ""⟩) :=
  c4_content_type_json ⟨Method.GET, "/", [], ""⟩ rfl rfl

/-- Claim C5: handling a request leaves the application state (the route
table, the program's only state) unchanged, the response is a function of
that unchanged state and the request alone, and the payload is the fixed
fresh construction on every request. -/
theorem c5_no_side_effects (a : FastAPIApp) (req : Request) :
    (a.step req).1 = a ∧
    (a.step req).2 = a.handle req ∧
    root req = Json.obj [("message", Json.str "Hello CI/CD World!")] :=
  ⟨rfl, rfl, rfl⟩

set_option maxRecDepth 10000 in
/-- Claim C6: a request to a path with no registered route gets the
not-found status 404 (in particular a non-2xx status), and the application's
route table contains no handler for any path other than `/`. -/
theorem c6_unknown_path_not_found (req : Request) (hp : req.path ≠ "/") :
    (handleRequest req).status = 404 ∧
    ¬(200 ≤ (handleRequest req).status ∧ (handleRequest req).status < 300) ∧
    (app.routes.all fun r => r.2.1 == "/") = true := by
  obtain ⟨m, p, hs, b⟩ := req
  have hb : ("/" == p) = false := beq_eq_false_iff_ne.mpr (Ne.symm hp)
  have h404 : handleRequest ⟨m, p, hs, b⟩
      = ⟨404, "text/plain; charset=utf-8", "Not Found"⟩ := by
    simp only [handleRequest, app, FastAPIApp.handle, FastAPIApp.get, List.nil_append,
      List.find?, List.any_cons, List.any_nil, hb, Bool.and_false, Bool.or_false,
      if_false, Bool.false_eq_true]
  rw [h404]
  exact ⟨rfl, by decide, rfl⟩

/-- Witness for C6 at the concrete request GET `/missing`. -/
theorem c6_witness :
    (handleRequest ⟨Method.GET, "/missing", [], ""⟩).status = 404 ∧
    ¬(200 ≤ (handleRequest ⟨Method.GET, "/missing", [], ""⟩).status ∧
        (handleRequest ⟨Method.GET, "/missing", [], ""⟩).status < 300) ∧
    (app.routes.all fun r => r.2.1 == "/") = true :=
  c6_unknown_path_not_found ⟨Method.GET, "/missing", [], ""⟩ (by decide)

/-- Claim C7: a POST request to `/` gets the method-not-allowed status 405,
and the application registers no POST handler at all. -/
theorem c7_post_method_not_allowed (req : Request)
    (hm : req.method = Method.POST) (hp : req.path = "/") :
    (handleRequest req).status = 405 ∧
    app.routes.find? (fun r => r.1 == Method.POST) = none := by
  obtain ⟨m, p, hs, b⟩ := req
  cases hm
  cases hp
  exact ⟨rfl, rfl⟩

/-- Witness for C7 at the concrete request POST `/`. -/
theorem c7_witness :
    (handleRequest ⟨Method.POST, "/", [], ""⟩).status = 405 ∧
    app.routes.find? (fun r => r.1 == Method.POST) = none :=
  c7_post_method_not_allowed ⟨Method.POST, "/", [], ""⟩ rfl rfl

/-- Claim C8: on startup the application registers exactly one route, the
pair (GET, `/`) mapped to `root`: the route table's (method, path) pairs are
exactly `[(GET, "/")]`, its handlers exactly `[root]`, and a (method, path)
pair has a matching route precisely when it is (GET, `/`). -/
theorem c8_single_route :
    app.routes.map (fun r => (r.1, r.2.1)) = [(Method.GET, "/")] ∧
    app.routes.map (fun r => r.2.2) = [root] ∧
    ∀ m p, (app.routes.find? fun r => r.1 == m && r.2.1 == p).isSome
      ↔ (m = Method.GET ∧ p = "/") := by
  refine ⟨rfl, rfl, fun m p => ?_⟩
  rw [show (app.routes.find? fun r => r.1 == m && r.2.1 == p)
        = if (Method.GET == m && "/" == p) = true
          then some (Method.GET, "/", root) else none
      from find?_singleton _ _]
  by_cases hb : (Method.GET == m && "/" == p) = true
  · rw [if_pos hb]
    simp only [Bool.and_eq_true, beq_iff_eq] at hb
    constructor
    · intro _
      exact ⟨hb.1.symm, hb.2.symm⟩
    · intro _
      rfl
  · rw [if_neg hb]
    constructor
    · intro hs
      simp at hs
    · rintro ⟨rfl, rfl⟩
      exact absurd (by decide) hb

/-- Witness for C8: the pair (GET, `/`) does have a matching route. -/
theorem c8_witness :
    (app.routes.find? fun r => r.1 == Method.GET && r.2.1 == "/").isSome :=
  (c8_single_route.2.2 Method.GET "/").mpr ⟨rfl, rfl⟩

/-- Claim C9: the handler call is total — on every request it returns a
value (the fixed payload) and never raises: no invocation produces
`Except.error`. -/
theorem c9_handler_total (req : Request) :
    rootCall req = Except.ok (Json.obj [("message", Json.str "Hello CI/CD World!")]) ∧
    ∀ e, rootCall req ≠ Except.error e :=
  ⟨rfl, fun _ h => Except.noConfusion h⟩

/-- Witness for C9 at the concrete request GET `/`. -/
theorem c9_witness :
    rootCall ⟨Method.GET, "/", [], ""⟩
      = Except.ok (Json.obj [("message", Json.str "Hello CI/CD World!")]) ∧
    ∀ e, rootCall ⟨Method.GET, "/", [], ""⟩ ≠ Except.error e :=
  c9_handler_total ⟨Method.GET, "/", [], ""⟩

/-- Claim C10, counterexample: a HEAD request to `/` is NOT accepted — it
gets the method-not-allowed status 405, refuting the claim that the GET
registration also maps HEAD for the same path. -/
theorem c10_counterexample :
    (handleRequest ⟨Method.HEAD, "/", [], ""⟩).status = 405 ∧
    ¬(handleRequest ⟨Method.HEAD, "/", [], ""⟩).status = 200 := by
  exact ⟨rfl, by decide⟩

/-- Claim C10 as amended: a HEAD request to `/` is rejected with the
method-not-allowed status 405, because registering `root` through the
framework's GET decorator maps only the method GET for the path — no HEAD
route exists. -/
theorem c10_amended_head_not_allowed (req : Request)
    (hm : req.method = Method.HEAD) (hp : req.path = "/") :
    (handleRequest req).status = 405 ∧
    app.routes.find? (fun r => r.1 == Method.HEAD) = none := by
  obtain ⟨m, p, hs, b⟩ := req
  cases hm
  cases hp
  exact ⟨rfl, rfl⟩

/-- Witness for the amended C10 at the concrete request HEAD `/`. -/
theorem c10_witness :
    (handleRequest ⟨Method.HEAD, "/", [], ""⟩).status = 405 ∧
    app.routes.find? (fun r => r.1 == Method.HEAD) = none :=
  c10_amended_head_not_allowed ⟨Method.HEAD, "/", [], ""⟩ rfl rfl
